import Mathlib

/-!
Verification development for the fmpsdk client library.

Strings are modelled as lists of characters (`Str`); Python dictionaries as
association lists with unique keys; Python scalar values as `PyVal`
(strings, ints, floats as exact decimals carrying their printed decimal-place
count, and None); absent results as `Option`; raised exceptions as `Except`.
Python float values are modelled by the pair (mantissa, decimals) that matches
their positional decimal string representation, so 3.1 is (31, 1) and
2000000000.0 is (20000000000, 1).
-/

abbrev Str := List Char

def chars (s : String) : Str := s.data

/-- Python scalar values as they occur in provider records. -/
inductive PyVal : Type where
  | vNone : PyVal
  | vStr (s : Str) : PyVal
  | vInt (n : Int) : PyVal
  | vFloat (m : Int) (d : Nat) : PyVal
deriving DecidableEq, Repr

/-- A provider record: a flat mapping of field name to scalar value. -/
abbrev Rec := List (Str × PyVal)

/-- Dictionary lookup: first binding of a key, if any (Python dict access). -/
def recGet (r : Rec) (k : Str) : Option PyVal :=
  match r with
  | [] => none
  | kv :: rest => if kv.1 = k then some kv.2 else recGet rest k

/-- Python dict.get with a default value. -/
def pyGetD (r : Rec) (k : Str) (dflt : PyVal) : PyVal :=
  (recGet r k).getD dflt

/-- The character for one decimal digit. -/
def digitChar (d : Nat) : Char := Char.ofNat (48 + d)

/-- Digit-emission worker, structurally recursive on a fuel bound. -/
def natDigitsGo : Nat → Nat → Str
  | 0, _ => []
  | fuel + 1, n =>
    if n < 10 then [digitChar n]
    else natDigitsGo fuel (n / 10) ++ [digitChar (n % 10)]

/-- Digits of a natural number, most significant first (the fuel n + 1 always
suffices since a number has at most n + 1 decimal digits). -/
def natDigits (n : Nat) : Str := natDigitsGo (n + 1) n

/-- Python str of an int. -/
def intRepr (n : Int) : Str :=
  if n < 0 then '-' :: natDigits n.natAbs else natDigits n.natAbs

/-- Decimal digit string of a magnitude with exactly d digits after the point
(zero-padded on the left so that at least one digit precedes the point). -/
def natFloatDigits (mag : Nat) (d : Nat) : Str :=
  let ds := natDigits mag
  let padded := if ds.length < d + 1 then List.replicate (d + 1 - ds.length) '0' ++ ds else ds
  padded.take (padded.length - d) ++ '.' :: padded.drop (padded.length - d)

/-- Python str of a float whose positional representation has d decimals. -/
def floatRepr (m : Int) (d : Nat) : Str :=
  (if m < 0 then ['-'] else []) ++ natFloatDigits m.natAbs d

/-- Python str() on a scalar value. -/
def pyStr : PyVal → Str
  | PyVal.vNone => chars "None"
  | PyVal.vStr s => s
  | PyVal.vInt n => intRepr n
  | PyVal.vFloat m d => floatRepr m d

/-- The stringified cell for one field of one record: str(row.get(field, '')). -/
def cellStr (row : Rec) (field : Str) : Str :=
  pyStr (pyGetD row field (PyVal.vStr []))

/-- The cell csv.DictWriter writes for one field: the dict handed to writerow
maps a missing key to the empty string and keeps present values raw, and the
csv writer then renders None as the empty string while applying str() to any
other non-string value. -/
def csvCellStr (row : Rec) (field : Str) : Str :=
  match pyGetD row field (PyVal.vStr []) with
  | PyVal.vNone => []
  | v => pyStr v

/-- Result universe for the library's output-shaping layer: a raw record
collection (JSON passthrough / legacy non-condensed return), rendered text,
a legacy tuple-of-tuples table, or a raw single record. -/
inductive PyOut : Type where
  | listD (d : Option (List Rec)) : PyOut
  | text (s : Str) : PyOut
  | table (t : List (List Str)) : PyOut
  | record (r : Option Rec) : PyOut
deriving DecidableEq

/-- Raised Python exceptions relevant to the claims. The unsupported-output
ValueError of format_output is modelled structurally (carrying the offending
selector); the insider-trading ValueError carries its literal message. -/
inductive PyErr : Type where
  | typeError : PyErr
  | valueErrorMsg (msg : Str) : PyErr
  | unsupportedOutputFormat (output : Str) : PyErr
deriving DecidableEq

instance {e a : Type} [DecidableEq e] [DecidableEq a] : DecidableEq (Except e a) := fun x y =>
  match x, y with
  | Except.error u, Except.error v =>
    if h : u = v then Decidable.isTrue (congrArg _ h)
    else Decidable.isFalse (fun hc => h (Except.error.inj hc))
  | Except.ok u, Except.ok v =>
    if h : u = v then Decidable.isTrue (congrArg _ h)
    else Decidable.isFalse (fun hc => h (Except.ok.inj hc))
  | Except.error _, Except.ok _ => Decidable.isFalse (fun hc => Except.noConfusion hc)
  | Except.ok _, Except.error _ => Decidable.isFalse (fun hc => Except.noConfusion hc)

/-- All keys occurring in a record collection, first occurrence order.
Models tuple(set(key for entry in result for key in entry.keys())): the set
iteration order of CPython is arbitrary; this model fixes it to first
occurrence, which is immaterial to the claims (only cardinality and
membership are stated). -/
def dedupKeys (result : List Rec) : List Str :=
  (result.flatMap (fun entry => entry.map Prod.fst)).dedup

/-- The field tuple used by the tuple compaction: the supplied tuple if given
(here the check is an is-None check, not truthiness), else the key set. -/
def tupleFields (fields : Option (List Str)) (recs : List Rec) : List Str :=
  match fields with
  | none => dedupKeys recs
  | some f => f

/-- data_compression.compress_json_to_tuples. -/
def compress_json_to_tuples (result : Option (List Rec)) (condensed : Bool)
    (fields : Option (List Str)) : PyOut :=
  match result, condensed with
  | some recs, true =>
    match recs with
    | [] => PyOut.table [[]]
    | r0 :: rs =>
      let flds := tupleFields fields (r0 :: rs)
      PyOut.table (flds :: (r0 :: rs).map (fun entry => flds.map (fun f => cellStr entry f)))
  | _, _ => PyOut.listD result

/-- Nested data handled by apply_precision: a record, a list (recursed into),
or any other value (returned unchanged). -/
inductive PyData : Type where
  | record (r : Rec) : PyData
  | list (l : List PyData) : PyData
  | val (v : PyVal) : PyData

/-- Truncation toward zero of m / 10^d, as Python int() applied to a float. -/
def intTrunc (m : Int) (d : Nat) : Int :=
  (if m < 0 then -1 else 1) * Int.ofNat (m.natAbs / 10 ^ d)

/-- The mantissa of Decimal quantization with ROUND_HALF_UP (ties away from
zero) when dropping `shift` trailing decimal digits from magnitude mAbs. -/
def quantMant (mAbs : Nat) (shift : Nat) : Nat :=
  if shift = 0 then mAbs else (mAbs + 5 * 10 ^ (shift - 1)) / 10 ^ shift

/-- Inner round_value of data_compression.apply_precision.  The decimal-place
count of a numeric value is read off its str(): 0 for an int, d for a float
printed with d decimals.  With a positive effective precision the value is
quantized half-up and rendered with exactly that many decimals; otherwise it
is rendered as str(int(value)). -/
def round_value (precision : Int) : PyVal → PyVal
  | PyVal.vInt n => PyVal.vStr (intRepr n)
  | PyVal.vFloat m d =>
    let actual : Int := min (d : Int) precision
    if 0 < actual then
      PyVal.vStr ((if m < 0 then ['-'] else []) ++
        natFloatDigits (quantMant m.natAbs (d - actual.toNat)) actual.toNat)
    else
      PyVal.vStr (intRepr (intTrunc m d))
  | v => v

mutual

/-- Recursive body of apply_precision once a precision is present. -/
def applyPrec (p : Int) : PyData → PyData
  | PyData.record r => PyData.record (r.map (fun kv => (kv.1, round_value p kv.2)))
  | PyData.list l => PyData.list (applyPrecList p l)
  | PyData.val v => PyData.val v

def applyPrecList (p : Int) : List PyData → List PyData
  | [] => []
  | x :: xs => applyPrec p x :: applyPrecList p xs

end

/-- data_compression.apply_precision. -/
def apply_precision (data : PyData) (precision : Option Int) : PyData :=
  match precision with
  | none => data
  | some p => applyPrec p data

/-- Effective fieldnames of the tsv and markdown renderers:
fields if fields else list(json_data[0].keys()) (an empty field tuple is
falsy and also falls back to the first record's keys). -/
def effFields (fields : Option (List Str)) (first : Rec) : List Str :=
  match fields with
  | some (f :: fs) => f :: fs
  | _ => first.map Prod.fst

/-- A csv field needs quoting under QUOTE_MINIMAL when it contains the
delimiter, the quote character, or a line break. -/
def needsQuote (s : Str) : Bool :=
  s.any (fun c => c == '\t' || c == '"' || c == '\n' || c == '\r')

/-- csv.writer field encoding: minimal quoting with doubled quote chars. -/
def csvQuote (s : Str) : Str :=
  if needsQuote s then
    '"' :: (s.flatMap (fun c => if c == '"' then ['"', '"'] else [c])) ++ ['"']
  else s

/-- One line written by csv.writer with a tab delimiter. -/
def tsvLine (cellList : List Str) : Str :=
  List.intercalate ['\t'] (cellList.map csvQuote)

/-- Python str.rstrip applied for the newline character. -/
def rstripNewlines (s : Str) : Str :=
  (s.reverse.dropWhile (fun c => c == '\n')).reverse

/-- data_compression.compress_json_to_tsv: header line plus one line per
record, each line terminated with a newline by the writer, then any trailing
newlines stripped. -/
def compress_json_to_tsv (json_data : Option (List Rec))
    (fields : Option (List Str)) : Str :=
  match json_data with
  | none => []
  | some [] => []
  | some (r0 :: rs) =>
    let fieldnames := effFields fields r0
    let header := tsvLine fieldnames
    let rows := (r0 :: rs).map (fun row => tsvLine (fieldnames.map (fun f => csvCellStr row f)))
    rstripNewlines (List.flatten ((header :: rows).map (fun l => l ++ ['\n'])))

/-- One pipe-delimited markdown table row. -/
def mdRow (cellList : List Str) : Str :=
  chars "| " ++ List.intercalate (chars " | ") cellList ++ chars " |"

/-- data_compression.compress_json_to_markdown: header row, separator row of
three-dash cells, one row per record, joined with newlines. -/
def compress_json_to_markdown (json_data : Option (List Rec))
    (fields : Option (List Str)) : Str :=
  match json_data with
  | none => []
  | some [] => []
  | some (r0 :: rs) =>
    let fieldnames := effFields fields r0
    let header := mdRow fieldnames
    let separator := mdRow (fieldnames.map (fun _ => chars "---"))
    let rows := (r0 :: rs).map (fun row => mdRow (fieldnames.map (fun f => cellStr row f)))
    List.intercalate ['\n'] (header :: separator :: rows)

/-- data_compression.format_output: dispatch on the output selector, raising
ValueError for anything outside tsv, markdown, json. -/
def format_output (data : Option (List Rec)) (output : Str)
    (fields : Option (List Str)) : Except PyErr PyOut :=
  if output = chars "tsv" then Except.ok (PyOut.text (compress_json_to_tsv data fields))
  else if output = chars "markdown" then Except.ok (PyOut.text (compress_json_to_markdown data fields))
  else if output = chars "json" then Except.ok (PyOut.listD data)
  else Except.error (PyErr.unsupportedOutputFormat output)

/-- Numeric view of a scalar: Python int and float support order comparison
against a float; None and str do not (comparing them raises TypeError). -/
def pyNum : PyVal → Option ℚ
  | PyVal.vInt n => some (n : ℚ)
  | PyVal.vFloat m d => some (Rat.divInt m (10 ^ d))
  | _ => none

/-- Values that Python may compare against a float without a TypeError
(or null, which the estimate filter can remove first). -/
def isNumOrNone : PyVal → Bool
  | PyVal.vStr _ => false
  | _ => true

/-- The field projection of calendar_data.earning_calendar. -/
def earningFields : List Str :=
  [chars "date", chars "symbol", chars "eps", chars "epsEstimated",
   chars "revenue", chars "revenueEstimated", chars "fiscalDateEnding"]

/-- The estimate-completeness predicate of earning_calendar:
entry.get(epsEstimated) is not None and entry.get(revenueEstimated) is not None. -/
def estimateComplete (entry : Rec) : Bool :=
  pyGetD entry (chars "epsEstimated") PyVal.vNone != PyVal.vNone &&
  pyGetD entry (chars "revenueEstimated") PyVal.vNone != PyVal.vNone

/-- The revenue-floor filter of earning_calendar:
keeps entries with entry.get(revenueEstimated, 0) >= revenue_minimum, raising
TypeError when the compared value is not a number (left-to-right, as a list
comprehension evaluates). -/
def filterRevenue (revenue_minimum : ℚ) : List Rec → Except PyErr (List Rec)
  | [] => Except.ok []
  | entry :: rest =>
    match pyNum (pyGetD entry (chars "revenueEstimated") (PyVal.vInt 0)) with
    | none => Except.error PyErr.typeError
    | some q =>
      match filterRevenue revenue_minimum rest with
      | Except.error e => Except.error e
      | Except.ok kept => Except.ok (if revenue_minimum ≤ q then entry :: kept else kept)

/-- The revenue-floor comparison as a boolean predicate (defined only where
pyNum succeeds; the 0 default is never read under the theorems' hypotheses). -/
def revenueKeep (revMin : ℚ) (e : Rec) : Bool :=
  decide (revMin ≤ (pyNum (pyGetD e (chars "revenueEstimated") (PyVal.vInt 0))).getD 0)

/-- calendar_data.earning_calendar, from the fetched provider result onward
(query building has no effect on the returned value).  Returns none when the
fetch failed. -/
def earning_calendar (result : Option (List Rec)) (estimate_required : Bool)
    (revenue_minimum : ℚ) (output : Str) : Except PyErr (Option PyOut) :=
  match result with
  | none => Except.ok none
  | some recs =>
    let recs1 := if estimate_required then recs.filter estimateComplete else recs
    match filterRevenue revenue_minimum recs1 with
    | Except.error e => Except.error e
    | Except.ok recs2 =>
      match format_output (some recs2) output (some earningFields) with
      | Except.error e => Except.error e
      | Except.ok out => Except.ok (some out)

/-- A built provider request: path plus query-parameter map. -/
structure FetchCall where
  path : Str
  query : Rec
deriving DecidableEq

/-- How many of the three identifying filters are provided (not None). -/
def providedCount (symbol : Option Str) (reporting_cik : Option Int)
    (company_cik : Option Int) : Nat :=
  (if reporting_cik.isSome then 1 else 0) +
  (if company_cik.isSome then 1 else 0) +
  (if symbol.isSome then 1 else 0)

/-- insider_trading.insider_trading up to the request it would issue.  The
returned FetchCall stands for the single network request; the ValueError is
raised before it.  Each truthy filter is added to the query map in source
order (a falsy provided value, such as 0 or the empty string, still counts as
provided but is not added, mirroring the truthiness checks in the source). -/
def insider_trading (apiKey : PyVal) (symbol : Option Str)
    (reporting_cik : Option Int) (company_cik : Option Int) (limit : Int) :
    Except PyErr FetchCall :=
  let q0 : Rec := [(chars "apikey", apiKey), (chars "limit", PyVal.vInt limit)]
  if providedCount symbol reporting_cik company_cik ≠ 1 then
    Except.error (PyErr.valueErrorMsg
      (chars "Do not combine symbol, reporting_cik or company_cik parameters. Only provide one."))
  else
    let q1 := q0 ++ (match reporting_cik with
      | some n => if n ≠ 0 then [(chars "reportingCik", PyVal.vInt n)] else []
      | none => [])
    let q2 := q1 ++ (match company_cik with
      | some n => if n ≠ 0 then [(chars "companyCik", PyVal.vInt n)] else []
      | none => [])
    let q3 := q2 ++ (match symbol with
      | some s => if s ≠ [] then [(chars "symbol", PyVal.vStr s)] else []
      | none => [])
    Except.ok { path := chars "insider-trading/", query := q3 }

/-- A value inside the wrapper object returned for historical-price-full:
a list of records or JSON null. -/
inductive WVal : Type where
  | list (l : List Rec) : WVal
  | null : WVal
deriving DecidableEq

/-- The provider wrapper object: a mapping of key to wrapper value. -/
abbrev Wrapper := List (Str × WVal)

/-- Python dict lookup on the wrapper: some value when the key is present. -/
def wGet (w : Wrapper) (k : Str) : Option WVal :=
  match w with
  | [] => none
  | kv :: rest => if kv.1 = k then some kv.2 else wGet rest k

/-- result.get("historicalStockList", result.get("historical", None)):
the historical key is only consulted when historicalStockList is absent. -/
def historicalChain (w : Wrapper) : WVal :=
  match wGet w (chars "historicalStockList") with
  | some v => v
  | none =>
    match wGet w (chars "historical") with
    | some v => v
    | none => WVal.null

/-- general.historical_price_full (identical in quote.py) from the fetched
wrapper onward: when the response and the extracted series are both truthy
the series is compacted, otherwise None is returned. -/
def historical_price_full (result : Option Wrapper) (condensed : Bool) :
    Option PyOut :=
  match result with
  | none => none
  | some [] => none
  | some (kv :: rest) =>
    match historicalChain (kv :: rest) with
    | WVal.list (r :: rs) => some (compress_json_to_tuples (some (r :: rs)) condensed none)
    | _ => none

/-- Modelled from the spec: url_methods.__validate_period is not under src/.
Per the spec the period validator accepts exactly "annual" or "quarter" and
raises an invalid-argument failure on anything else. -/
def validate_period (period : Str) : Except PyErr Str :=
  if period = chars "annual" ∨ period = chars "quarter" then Except.ok period
  else Except.error (PyErr.valueErrorMsg (chars "Invalid period value."))

/-- The environment a statement call runs against: the decoded JSON the
request layer would yield, and the raw body a CSV-mode request would yield. -/
structure FetchEnv where
  jsonResult : Option (List Rec)
  csvBody : Str
deriving DecidableEq

/-- The observable outcome of one statement/constituent call: the request
path and query map, the file written (name and raw content), whether the JSON
fetch-and-render path ran, and the returned value (none models returning no
value). -/
structure CallEffects where
  path : Str
  query : Rec
  fileWritten : Option (Str × Str)
  jsonFetched : Bool
  retval : Option PyOut
deriving DecidableEq

/-- financial_statements.income_statement.  The period is validated while the
query map is built, before the download branch. -/
def income_statement (env : FetchEnv) (apiKey : PyVal) (symbol : Str)
    (limit : Int) (period : Str) (download : Bool) (filename : Str)
    (output : Str) : Except PyErr CallEffects :=
  match validate_period period with
  | Except.error e => Except.error e
  | Except.ok p =>
    let pth := chars "income-statement/" ++ symbol
    let q : Rec := [(chars "apikey", apiKey), (chars "limit", PyVal.vInt limit),
                    (chars "period", PyVal.vStr p)]
    if download then
      Except.ok { path := pth, query := q ++ [(chars "datatype", PyVal.vStr (chars "csv"))],
                  fileWritten := some (filename, env.csvBody),
                  jsonFetched := false, retval := none }
    else
      match format_output env.jsonResult output none with
      | Except.error e => Except.error e
      | Except.ok out =>
        Except.ok { path := pth, query := q, fileWritten := none,
                    jsonFetched := true, retval := some out }

/-- financial_statements.balance_sheet_statement. -/
def balance_sheet_statement (env : FetchEnv) (apiKey : PyVal) (symbol : Str)
    (limit : Int) (period : Str) (download : Bool) (filename : Str)
    (output : Str) : Except PyErr CallEffects :=
  match validate_period period with
  | Except.error e => Except.error e
  | Except.ok p =>
    let pth := chars "balance-sheet-statement/" ++ symbol
    let q : Rec := [(chars "apikey", apiKey), (chars "limit", PyVal.vInt limit),
                    (chars "period", PyVal.vStr p)]
    if download then
      Except.ok { path := pth, query := q ++ [(chars "datatype", PyVal.vStr (chars "csv"))],
                  fileWritten := some (filename, env.csvBody),
                  jsonFetched := false, retval := none }
    else
      match format_output env.jsonResult output none with
      | Except.error e => Except.error e
      | Except.ok out =>
        Except.ok { path := pth, query := q, fileWritten := none,
                    jsonFetched := true, retval := some out }

/-- financial_statements.cash_flow_statement. -/
def cash_flow_statement (env : FetchEnv) (apiKey : PyVal) (symbol : Str)
    (limit : Int) (period : Str) (download : Bool) (filename : Str)
    (output : Str) : Except PyErr CallEffects :=
  match validate_period period with
  | Except.error e => Except.error e
  | Except.ok p =>
    let pth := chars "cash-flow-statement/" ++ symbol
    let q : Rec := [(chars "apikey", apiKey), (chars "limit", PyVal.vInt limit),
                    (chars "period", PyVal.vStr p)]
    if download then
      Except.ok { path := pth, query := q ++ [(chars "datatype", PyVal.vStr (chars "csv"))],
                  fileWritten := some (filename, env.csvBody),
                  jsonFetched := false, retval := none }
    else
      match format_output env.jsonResult output none with
      | Except.error e => Except.error e
      | Except.ok out =>
        Except.ok { path := pth, query := q, fileWritten := none,
                    jsonFetched := true, retval := some out }

/-- financial_statements.income_statement_as_reported. -/
def income_statement_as_reported (env : FetchEnv) (apiKey : PyVal)
    (symbol : Str) (limit : Int) (period : Str) (download : Bool)
    (filename : Str) (output : Str) : Except PyErr CallEffects :=
  match validate_period period with
  | Except.error e => Except.error e
  | Except.ok p =>
    let pth := chars "income-statement-as-reported/" ++ symbol
    let q : Rec := [(chars "apikey", apiKey), (chars "limit", PyVal.vInt limit),
                    (chars "period", PyVal.vStr p)]
    if download then
      Except.ok { path := pth, query := q ++ [(chars "datatype", PyVal.vStr (chars "csv"))],
                  fileWritten := some (filename, env.csvBody),
                  jsonFetched := false, retval := none }
    else
      match format_output env.jsonResult output none with
      | Except.error e => Except.error e
      | Except.ok out =>
        Except.ok { path := pth, query := q, fileWritten := none,
                    jsonFetched := true, retval := some out }

/-- financial_statements.balance_sheet_statement_as_reported. -/
def balance_sheet_statement_as_reported (env : FetchEnv) (apiKey : PyVal)
    (symbol : Str) (limit : Int) (period : Str) (download : Bool)
    (filename : Str) (output : Str) : Except PyErr CallEffects :=
  match validate_period period with
  | Except.error e => Except.error e
  | Except.ok p =>
    let pth := chars "balance-sheet-statement-as-reported/" ++ symbol
    let q : Rec := [(chars "apikey", apiKey), (chars "limit", PyVal.vInt limit),
                    (chars "period", PyVal.vStr p)]
    if download then
      Except.ok { path := pth, query := q ++ [(chars "datatype", PyVal.vStr (chars "csv"))],
                  fileWritten := some (filename, env.csvBody),
                  jsonFetched := false, retval := none }
    else
      match format_output env.jsonResult output none with
      | Except.error e => Except.error e
      | Except.ok out =>
        Except.ok { path := pth, query := q, fileWritten := none,
                    jsonFetched := true, retval := some out }

/-- financial_statements.cash_flow_statement_as_reported. -/
def cash_flow_statement_as_reported (env : FetchEnv) (apiKey : PyVal)
    (symbol : Str) (limit : Int) (period : Str) (download : Bool)
    (filename : Str) (output : Str) : Except PyErr CallEffects :=
  match validate_period period with
  | Except.error e => Except.error e
  | Except.ok p =>
    let pth := chars "cash-flow-statement-as-reported/" ++ symbol
    let q : Rec := [(chars "apikey", apiKey), (chars "limit", PyVal.vInt limit),
                    (chars "period", PyVal.vStr p)]
    if download then
      Except.ok { path := pth, query := q ++ [(chars "datatype", PyVal.vStr (chars "csv"))],
                  fileWritten := some (filename, env.csvBody),
                  jsonFetched := false, retval := none }
    else
      match format_output env.jsonResult output none with
      | Except.error e => Except.error e
      | Except.ok out =>
        Except.ok { path := pth, query := q, fileWritten := none,
                    jsonFetched := true, retval := some out }

/-- market_indexes.sp500_constituent: the same two-branch shape with no
period/output arguments and the legacy tuple compaction on the JSON path. -/
def sp500_constituent (env : FetchEnv) (apiKey : PyVal) (download : Bool)
    (filename : Str) (condensed : Bool) : CallEffects :=
  let pth := chars "sp500_constituent"
  let q : Rec := [(chars "apikey", apiKey)]
  if download then
    { path := pth, query := q ++ [(chars "datatype", PyVal.vStr (chars "csv"))],
      fileWritten := some (filename, env.csvBody),
      jsonFetched := false, retval := none }
  else
    { path := pth, query := q, fileWritten := none, jsonFetched := true,
      retval := some (compress_json_to_tuples env.jsonResult condensed none) }

/-- quote.is_market_open from the fetched single record onward: when the
fetch succeeded and condensed is set, the record's keys become a header tuple
followed by one stringified value row; otherwise the raw record is returned. -/
def is_market_open (result : Option Rec) (condensed : Bool) : PyOut :=
  match result, condensed with
  | some r, true =>
    let flds := r.map Prod.fst
    PyOut.table [flds, flds.map (fun f => cellStr r f)]
  | _, _ => PyOut.record result

/-- company_valuation.is_market_open: returns the fetched record unchanged. -/
def is_market_open_cv (result : Option Rec) : Option Rec := result

/-- Modelled from the spec: the behavior the spec table ascribes to
is_market_open, namely wrapping the single record in a single-element
collection and applying the Markdown/TSV/JSON renderer. -/
def is_market_open_spec (result : Option Rec) (output : Str) :
    Except PyErr PyOut :=
  format_output (result.map (fun r => [r])) output none

/-- Splitting the claimed TSV shape back apart: lines on newline, cells on tab. -/
def parseTsv (s : Str) : List (List Str) :=
  (s.splitOn '\n').map (fun l => l.splitOn '\t')

/-- Remove one leading space, if present. -/
def dropLeadSpace : Str → Str
  | ' ' :: t => t
  | s => s

/-- Remove one leading and one trailing space, if present (the padding the
markdown renderer puts around each cell). -/
def trimOneSpace (s : Str) : Str :=
  (dropLeadSpace ((dropLeadSpace s).reverse)).reverse

/-- Split one markdown table row on the pipe delimiter, discarding the empty
fragments before the leading and after the trailing pipe, and strip each
cell's padding. -/
def parseMdLine (l : Str) : List Str :=
  (((l.splitOn '|').drop 1).dropLast).map trimOneSpace

/-- Parse back the claimed markdown table shape: first line the header,
second line a separator consisting of three-dash cells, remaining lines one
per record. -/
def parseMarkdown (s : Str) : Option (List Str × List (List Str)) :=
  match s.splitOn '\n' with
  | headerLine :: sepLine :: rowLines =>
    if (parseMdLine sepLine).all (fun c => c = chars "---") then
      some (parseMdLine headerLine, rowLines.map parseMdLine)
    else none
  | _ => none

/-- The decimal-place count Python reads off a numeric string:
len(s.split('.')[-1]) if '.' in s else 0. -/
def decPlaces (s : Str) : Nat :=
  if '.' ∈ s then ((s.splitOn '.').getLastD []).length else 0

/-- A markdown-safe cell: contains neither the pipe delimiter nor a newline. -/
def mdCleanCell (s : Str) : Prop := '|' ∉ s ∧ '\n' ∉ s

/-- A tsv-safe cell: contains no character that would trigger csv quoting. -/
def tsvCleanCell (s : Str) : Prop :=
  '\t' ∉ s ∧ '\n' ∉ s ∧ '\r' ∉ s ∧ '"' ∉ s

instance (s : Str) : Decidable (mdCleanCell s) := by
  unfold mdCleanCell; infer_instance

instance (s : Str) : Decidable (tsvCleanCell s) := by
  unfold tsvCleanCell; infer_instance

/-! ### Helper lemmas about list splitting and joining -/

theorem intercalate_cons_cons {α : Type} (sep a b : List α) (t : List (List α)) :
    List.intercalate sep (a :: b :: t) = a ++ sep ++ List.intercalate sep (b :: t) := by
  simp [List.intercalate, List.intersperse]

theorem mem_intercalate {α : Type} (sep : List α) (x : α) :
    ∀ L : List (List α), x ∈ List.intercalate sep L → x ∈ sep ∨ ∃ l ∈ L, x ∈ l := by
  intro L
  induction L with
  | nil => simp [List.intercalate]
  | cons a t ih =>
    cases t with
    | nil =>
      simp only [List.intercalate, List.intersperse, List.flatten, List.append_nil]
      intro hx
      exact Or.inr ⟨a, List.mem_cons_self _ _, hx⟩
    | cons b t2 =>
      rw [intercalate_cons_cons]
      intro hx
      rcases List.mem_append.mp hx with hx | hx
      · rcases List.mem_append.mp hx with hx | hx
        · exact Or.inr ⟨a, List.mem_cons_self _ _, hx⟩
        · exact Or.inl hx
      · rcases ih hx with hx | ⟨l, hl, hxl⟩
        · exact Or.inl hx
        · exact Or.inr ⟨l, List.mem_cons_of_mem _ hl, hxl⟩

theorem intercalate_ne_nil_of_two {α : Type} (sep : List α) (a b : List α)
    (t : List (List α)) (hsep : sep ≠ []) :
    List.intercalate sep (a :: b :: t) ≠ [] := by
  rw [intercalate_cons_cons]
  intro h
  rcases List.append_eq_nil.mp h with ⟨h1, _⟩
  rcases List.append_eq_nil.mp h1 with ⟨_, h3⟩
  exact hsep h3

theorem dropWhile_append_of_ne_nil {α : Type} (p : α → Bool) (x y : List α)
    (h : x.dropWhile p ≠ []) :
    (x ++ y).dropWhile p = x.dropWhile p ++ y := by
  induction x with
  | nil => simp at h
  | cons c t ih =>
    by_cases hc : p c
    · rw [List.cons_append, List.dropWhile_cons_of_pos hc, ih (by
        rwa [List.dropWhile_cons_of_pos hc] at h), List.dropWhile_cons_of_pos hc]
    · rw [List.cons_append, List.dropWhile_cons_of_neg hc,
        List.dropWhile_cons_of_neg hc, List.cons_append]

theorem rstrip_eq_rdropWhile (s : Str) :
    rstripNewlines s = List.rdropWhile (fun c => c == '\n') s := rfl

theorem rstrip_concat_nl (l : Str) :
    rstripNewlines (l ++ ['\n']) = rstripNewlines l := by
  rw [rstrip_eq_rdropWhile, rstrip_eq_rdropWhile]
  exact List.rdropWhile_concat_pos _ _ _ (by decide)

theorem rstrip_of_no_nl (l : Str) (h : '\n' ∉ l) : rstripNewlines l = l := by
  rw [rstrip_eq_rdropWhile]
  refine List.rdropWhile_eq_self_iff.mpr (fun hl => ?_)
  have hmem := List.getLast_mem hl
  simp only [beq_iff_eq]
  intro hEq
  exact h (hEq ▸ hmem)

theorem rstrip_append (a b : Str) (h : rstripNewlines b ≠ []) :
    rstripNewlines (a ++ b) = a ++ rstripNewlines b := by
  unfold rstripNewlines at *
  rw [List.reverse_append]
  rw [dropWhile_append_of_ne_nil _ _ _ (fun hnil => h (by rw [hnil]; rfl))]
  rw [List.reverse_append, List.reverse_reverse]

theorem rstrip_getLast_ne_nl (s : Str) :
    (rstripNewlines s).getLast? ≠ some '\n' := by
  by_cases hne : rstripNewlines s = []
  · rw [hne]; simp
  · rw [List.getLast?_eq_getLast _ hne]
    intro hsome
    have hl : (rstripNewlines s).getLast hne = '\n' := Option.some_injective _ hsome
    have hlast := List.rdropWhile_last_not (fun c => c == '\n') s hne
    simp only [beq_iff_eq] at hlast
    exact hlast hl

theorem intercalate_singleton {α : Type} (sep : List α) (l : List α) :
    List.intercalate sep [l] = l := by
  simp [List.intercalate, List.intersperse]

theorem rstrip_flatten (lines : List Str) (h0 : lines ≠ [])
    (h1 : ∀ l ∈ lines, '\n' ∉ l) (hlast : lines.getLast? ≠ some []) :
    rstripNewlines (List.flatten (lines.map (fun l => l ++ ['\n']))) =
      List.intercalate ['\n'] lines := by
  induction lines with
  | nil => exact absurd rfl h0
  | cons l t ih =>
    cases t with
    | nil =>
      simp only [List.map_cons, List.map_nil, List.flatten_cons, List.flatten_nil,
        List.append_nil]
      rw [rstrip_concat_nl, rstrip_of_no_nl l (h1 l (List.mem_cons_self _ _)),
        intercalate_singleton]
    | cons m t2 =>
      have hlast2 : (m :: t2).getLast? ≠ some [] := by
        rwa [List.getLast?_cons_cons] at hlast
      have hrest : rstripNewlines (List.flatten ((m :: t2).map (fun l => l ++ ['\n']))) =
          List.intercalate ['\n'] (m :: t2) :=
        ih (List.cons_ne_nil _ _)
          (fun x hx => h1 x (List.mem_cons_of_mem _ hx)) hlast2
      have hne : rstripNewlines (List.flatten ((m :: t2).map (fun l => l ++ ['\n']))) ≠ [] := by
        rw [hrest]
        cases t2 with
        | nil =>
          rw [intercalate_singleton]
          intro hm
          exact hlast2 (by rw [hm]; rfl)
        | cons p t3 => exact intercalate_ne_nil_of_two _ _ _ _ (by simp)
      calc rstripNewlines (List.flatten ((l :: m :: t2).map (fun x => x ++ ['\n'])))
          = rstripNewlines ((l ++ ['\n']) ++ List.flatten ((m :: t2).map (fun x => x ++ ['\n']))) := by
            simp
        _ = (l ++ ['\n']) ++ rstripNewlines (List.flatten ((m :: t2).map (fun x => x ++ ['\n']))) :=
            rstrip_append _ _ hne
        _ = (l ++ ['\n']) ++ List.intercalate ['\n'] (m :: t2) := by rw [hrest]
        _ = List.intercalate ['\n'] (l :: m :: t2) := by
            rw [intercalate_cons_cons]

theorem needsQuote_eq_false (s : Str) (h : tsvCleanCell s) : needsQuote s = false := by
  rcases h with ⟨h1, h2, h3, h4⟩
  simp only [needsQuote, List.any_eq_false]
  intro c hc
  have n1 : c ≠ '\t' := fun e => h1 (e ▸ hc)
  have n2 : c ≠ '\n' := fun e => h2 (e ▸ hc)
  have n3 : c ≠ '\r' := fun e => h3 (e ▸ hc)
  have n4 : c ≠ '"' := fun e => h4 (e ▸ hc)
  simp [n1, n2, n3, n4]

theorem csvQuote_clean (s : Str) (h : tsvCleanCell s) : csvQuote s = s := by
  rw [csvQuote, needsQuote_eq_false s h]
  simp

theorem tsvLine_clean (cells : List Str) (h : ∀ c ∈ cells, tsvCleanCell c) :
    tsvLine cells = List.intercalate ['\t'] cells := by
  rw [tsvLine, List.map_congr_left (fun c hc => csvQuote_clean c (h c hc))]
  simp

theorem not_mem_tsvLine (cells : List Str) (h : ∀ c ∈ cells, tsvCleanCell c)
    (x : Char) (hx : x ≠ '\t') (h2 : ∀ l ∈ cells, x ∉ l) : x ∉ tsvLine cells := by
  rw [tsvLine_clean cells h]
  intro hmem
  rcases mem_intercalate _ _ _ hmem with hs | ⟨l, hl, hxl⟩
  · simp at hs; exact hx hs
  · exact h2 l hl hxl

theorem intercalate_pipe_shape : ∀ (cellList : List Str), cellList ≠ [] →
    List.intercalate ['|'] ([] :: cellList.map (fun x => ' ' :: (x ++ [' '])) ++ [[]]) =
      chars "| " ++ List.intercalate (chars " | ") cellList ++ chars " |" := by
  intro cellList
  induction cellList with
  | nil => intro h; exact absurd rfl h
  | cons c cs ih =>
    intro _
    cases cs with
    | nil =>
      simp only [List.map_cons, List.map_nil, List.nil_append, List.cons_append]
      rw [intercalate_cons_cons, intercalate_cons_cons, intercalate_singleton,
        intercalate_singleton]
      simp [chars]
    | cons c2 cs2 =>
      have hIH := ih (List.cons_ne_nil _ _)
      simp only [List.map_cons, List.cons_append] at hIH ⊢
      rw [intercalate_cons_cons] at hIH ⊢
      rw [intercalate_cons_cons (chars " | ") c c2 cs2]
      have hY := hIH
      simp only [List.nil_append] at hY
      rw [show chars "| " = ['|', ' '] from rfl, show chars " |" = [' ', '|'] from rfl] at hY
      simp only [List.cons_append, List.nil_append, List.cons.injEq, true_and] at hY
      rw [intercalate_cons_cons ['|'] (' ' :: (c ++ [' '])) (' ' :: (c2 ++ [' ']))]
      rw [hY]
      simp [chars, List.append_assoc]

theorem trim_pad (x : Str) : trimOneSpace (' ' :: (x ++ [' '])) = x := by
  simp only [trimOneSpace, dropLeadSpace]
  rw [List.reverse_append]
  simp [dropLeadSpace]

theorem mdRow_eq_intercalate (cellList : List Str) (hne : cellList ≠ []) :
    mdRow cellList =
      List.intercalate ['|'] ([] :: cellList.map (fun x => ' ' :: (x ++ [' '])) ++ [[]]) := by
  rw [intercalate_pipe_shape cellList hne, mdRow]

theorem parseMdLine_mdRow (cellList : List Str) (hne : cellList ≠ [])
    (h : ∀ x ∈ cellList, '|' ∉ x) : parseMdLine (mdRow cellList) = cellList := by
  rw [parseMdLine, mdRow_eq_intercalate cellList hne]
  rw [List.splitOn_intercalate _ '|' ?clean ?nonnil]
  case clean =>
    intro l hl
    rcases List.mem_cons.mp hl with rfl | hl
    · simp
    · rcases List.mem_append.mp hl with hl | hl
      · rcases List.mem_map.mp hl with ⟨x, hx, rfl⟩
        intro hmem
        rcases List.mem_cons.mp hmem with hc | hc
        · exact absurd hc.symm (by decide)
        · rcases List.mem_append.mp hc with hc | hc
          · exact h x hx hc
          · simp at hc
      · simp at hl
        rw [hl]
        simp
  case nonnil => exact List.cons_ne_nil _ _
  rw [List.drop_one]
  simp only [List.cons_append, List.tail_cons, List.dropLast_concat]
  simp only [List.map_map, Function.comp_def]
  rw [List.map_congr_left (fun x _ => trim_pad x)]
  simp

theorem not_mem_mdRow (cellList : List Str) (hne : cellList ≠ []) (x : Char)
    (hx1 : x ≠ '|') (hx2 : x ≠ ' ') (h : ∀ l ∈ cellList, x ∉ l) :
    x ∉ mdRow cellList := by
  rw [mdRow_eq_intercalate cellList hne]
  intro hmem
  rcases mem_intercalate _ _ _ hmem with hs | ⟨l, hl, hxl⟩
  · simp at hs; exact hx1 hs
  · rcases List.mem_cons.mp hl with rfl | hl
    · simp at hxl
    · rcases List.mem_append.mp hl with hl | hl
      · rcases List.mem_map.mp hl with ⟨y, hy, rfl⟩
        rcases List.mem_cons.mp hxl with hc | hc
        · exact hx2 hc
        · rcases List.mem_append.mp hc with hc | hc
          · exact h y hy hc
          · simp at hc; exact hx2 hc
      · simp at hl; rw [hl] at hxl; simp at hxl

theorem mdRow_ne_nil (cellList : List Str) : mdRow cellList ≠ [] := by
  simp [mdRow, chars]

theorem getLast?_map_cons {α β : Type} (g : α → β) (a : α) (l : List α) :
    ((a :: l).map g).getLast? = some (g (l.getLastD a)) := by
  induction l generalizing a with
  | nil => rfl
  | cons b t ih =>
    rw [List.map_cons, List.map_cons, List.getLast?_cons_cons, ← List.map_cons]
    rw [ih b]
    rw [List.getLastD_cons]

theorem parseMarkdown_cons_cons (a b : Str) (t : List Str) (s : Str)
    (hs : s.splitOn '\n' = a :: b :: t) :
    parseMarkdown s =
      if (parseMdLine b).all (fun c => c = chars "---") then
        some (parseMdLine a, t.map parseMdLine)
      else none := by
  unfold parseMarkdown
  rw [hs]

theorem getLast?_cons_of_ne_nil {α : Type} (a : α) (l : List α) (h : l ≠ []) :
    (a :: l).getLast? = l.getLast? := by
  cases l with
  | nil => exact absurd rfl h
  | cons b t => rw [List.getLast?_cons_cons]


/-- C10: both text renderers guard absent and empty input with one falsiness
check and return the empty string, so a failed fetch and a zero-record result
are indistinguishable in tsv and markdown modes. -/
theorem claim10_empty_render (fields : Option (List Str)) :
    compress_json_to_tsv none fields = [] ∧
    compress_json_to_tsv (some []) fields = [] ∧
    compress_json_to_markdown none fields = [] ∧
    compress_json_to_markdown (some []) fields = [] ∧
    format_output none (chars "tsv") fields = Except.ok (PyOut.text []) ∧
    format_output (some []) (chars "tsv") fields = format_output none (chars "tsv") fields ∧
    format_output none (chars "markdown") fields = Except.ok (PyOut.text []) ∧
    format_output (some []) (chars "markdown") fields =
      format_output none (chars "markdown") fields := by
  refine ⟨rfl, rfl, rfl, rfl, ?_, ?_, ?_, ?_⟩ <;> rfl

/-- C2: format_output returns the data unchanged for the json selector, and
raises the invalid-output-format ValueError, with no rendering performed, for
any selector outside json, tsv, markdown. -/
theorem claim2_format_output (data : Option (List Rec)) (output : Str)
    (fields : Option (List Str)) :
    (output = chars "json" → format_output data output fields =
      Except.ok (PyOut.listD data)) ∧
    (output ≠ chars "json" → output ≠ chars "tsv" → output ≠ chars "markdown" →
      format_output data output fields =
        Except.error (PyErr.unsupportedOutputFormat output)) := by
  constructor
  · rintro rfl
    rfl
  · intro h1 h2 h3
    simp only [format_output]
    rw [if_neg h2, if_neg h3, if_neg h1]

/-- C2 witness: json passthrough and the failure on a concrete bad selector. -/
theorem claim2_format_output_witness :
    format_output (some [[(chars "a", PyVal.vInt 1)]]) (chars "json") none =
      Except.ok (PyOut.listD (some [[(chars "a", PyVal.vInt 1)]])) ∧
    format_output (some [[(chars "a", PyVal.vInt 1)]]) (chars "xml") none =
      Except.error (PyErr.unsupportedOutputFormat (chars "xml")) :=
  ⟨(claim2_format_output _ _ _).1 rfl,
   (claim2_format_output _ _ _).2 (by decide) (by decide) (by decide)⟩

/-- C8: the legacy tuple compaction returns the input unchanged for absent
input or condensed set to false, a lone empty header row for an empty
collection, and otherwise a header row followed by one stringified row per
record, where every row (header included) has the length of the field tuple
in use; when no field tuple is supplied that tuple enumerates the distinct
keys of the union of all record key sets, without duplicates. -/
theorem claim8_tuples_invariant (result : Option (List Rec)) (condensed : Bool)
    (fields : Option (List Str)) :
    (compress_json_to_tuples none condensed fields = PyOut.listD none) ∧
    (compress_json_to_tuples result false fields = PyOut.listD result) ∧
    (compress_json_to_tuples (some []) true fields = PyOut.table [[]]) ∧
    (∀ r0 rs, result = some (r0 :: rs) →
      compress_json_to_tuples result true fields =
        PyOut.table (tupleFields fields (r0 :: rs) ::
          (r0 :: rs).map (fun r => (tupleFields fields (r0 :: rs)).map (fun f => cellStr r f))) ∧
      (∀ row ∈ tupleFields fields (r0 :: rs) ::
          (r0 :: rs).map (fun r => (tupleFields fields (r0 :: rs)).map (fun f => cellStr r f)),
        row.length = (tupleFields fields (r0 :: rs)).length) ∧
      (fields = none →
        (tupleFields fields (r0 :: rs)).Nodup ∧
        ∀ k, k ∈ tupleFields fields (r0 :: rs) ↔ ∃ r ∈ r0 :: rs, k ∈ r.map Prod.fst)) := by
  refine ⟨?_, ?_, rfl, ?_⟩
  · cases condensed <;> rfl
  · cases result <;> rfl
  · intro r0 rs hres
    subst hres
    refine ⟨rfl, ?_, ?_⟩
    · intro row hrow
      rcases List.mem_cons.mp hrow with rfl | hrow
      · rfl
      · rcases List.mem_map.mp hrow with ⟨r, _, rfl⟩
        simp
    · rintro rfl
      constructor
      · exact List.nodup_dedup _
      · intro k
        show k ∈ dedupKeys (r0 :: rs) ↔ _
        rw [dedupKeys, List.mem_dedup, List.mem_flatMap]

/-- C8 witness: the compaction evaluated on two records with disjoint keys. -/
theorem claim8_tuples_invariant_witness :
    compress_json_to_tuples (some [[(chars "a", PyVal.vInt 1)], [(chars "b", PyVal.vInt 2)]])
      true none =
      PyOut.table [[chars "a", chars "b"], [chars "1", []], [[], chars "2"]] ∧
    (tupleFields none [[(chars "a", PyVal.vInt 1)], [(chars "b", PyVal.vInt 2)]]).Nodup := by
  have h := (claim8_tuples_invariant
    (some [[(chars "a", PyVal.vInt 1)], [(chars "b", PyVal.vInt 2)]]) true none).2.2.2
    [(chars "a", PyVal.vInt 1)] [[(chars "b", PyVal.vInt 2)]] rfl
  exact ⟨h.1.trans (by decide), (h.2.2 rfl).1⟩

/-- C5: insider_trading raises the invalid-argument ValueError exactly when
the number of provided identifying filters differs from one, and with exactly
one filter provided it builds and issues the request. -/
theorem claim5_insider_trading (apiKey : PyVal) (symbol : Option Str)
    (reporting_cik : Option Int) (company_cik : Option Int) (limit : Int) :
    (providedCount symbol reporting_cik company_cik ≠ 1 →
      insider_trading apiKey symbol reporting_cik company_cik limit =
        Except.error (PyErr.valueErrorMsg (chars
          "Do not combine symbol, reporting_cik or company_cik parameters. Only provide one."))) ∧
    (providedCount symbol reporting_cik company_cik = 1 →
      ∃ call : FetchCall, insider_trading apiKey symbol reporting_cik company_cik limit =
        Except.ok call ∧ call.path = chars "insider-trading/") := by
  constructor
  · intro h
    rw [insider_trading.eq_def, if_pos h]
  · intro h
    rw [insider_trading.eq_def, if_neg (by rw [h]; exact fun hc => hc rfl)]
    exact ⟨_, rfl, rfl⟩

/-- C5 witness: zero filters and two filters raise; one filter proceeds. -/
theorem claim5_insider_trading_witness :
    insider_trading (PyVal.vStr (chars "k")) none none none 100 =
      Except.error (PyErr.valueErrorMsg (chars
        "Do not combine symbol, reporting_cik or company_cik parameters. Only provide one.")) ∧
    insider_trading (PyVal.vStr (chars "k")) (some (chars "AAPL")) none (some 320193) 100 =
      Except.error (PyErr.valueErrorMsg (chars
        "Do not combine symbol, reporting_cik or company_cik parameters. Only provide one.")) ∧
    (∃ call : FetchCall, insider_trading (PyVal.vStr (chars "k")) (some (chars "AAPL")) none none 100 =
      Except.ok call ∧ call.path = chars "insider-trading/") :=
  ⟨(claim5_insider_trading _ none none none 100).1 (by decide),
   (claim5_insider_trading _ (some (chars "AAPL")) none (some 320193) 100).1 (by decide),
   (claim5_insider_trading _ (some (chars "AAPL")) none none 100).2 (by decide)⟩

/-- C6 (amended): historical_price_full returns none when the fetch failed or
the wrapper is empty; when the wrapper holds a truthy (non-empty) list under
historicalStockList it returns that list compacted; when historicalStockList
is absent and a truthy list sits under historical it returns that list
compacted; in every other case, including a present-but-empty (or null)
historicalStockList, it returns none, because the fallback lookup only runs
when the first key is absent and an empty extracted list is falsy. -/
theorem claim6_historical_unwrap (w : Wrapper) (condensed : Bool) :
    (historical_price_full none condensed = none) ∧
    (historical_price_full (some []) condensed = none) ∧
    (∀ l, w ≠ [] → wGet w (chars "historicalStockList") = some (WVal.list l) → l ≠ [] →
      historical_price_full (some w) condensed =
        some (compress_json_to_tuples (some l) condensed none)) ∧
    (∀ l, w ≠ [] → wGet w (chars "historicalStockList") = none →
      wGet w (chars "historical") = some (WVal.list l) → l ≠ [] →
      historical_price_full (some w) condensed =
        some (compress_json_to_tuples (some l) condensed none)) ∧
    (w ≠ [] → (historicalChain w = WVal.null ∨ historicalChain w = WVal.list []) →
      historical_price_full (some w) condensed = none) := by
  refine ⟨rfl, rfl, ?_, ?_, ?_⟩
  · intro l hw hget hl
    have hch : historicalChain w = WVal.list l := by rw [historicalChain, hget]
    cases w with
    | nil => exact absurd rfl hw
    | cons kv rest =>
      cases l with
      | nil => exact absurd rfl hl
      | cons x xs =>
        show (match historicalChain (kv :: rest) with
          | WVal.list (r :: rs) => some (compress_json_to_tuples (some (r :: rs)) condensed none)
          | _ => none) = _
        rw [hch]
  · intro l hw hget1 hget2 hl
    have hch : historicalChain w = WVal.list l := by
      rw [historicalChain, hget1, hget2]
    cases w with
    | nil => exact absurd rfl hw
    | cons kv rest =>
      cases l with
      | nil => exact absurd rfl hl
      | cons x xs =>
        show (match historicalChain (kv :: rest) with
          | WVal.list (r :: rs) => some (compress_json_to_tuples (some (r :: rs)) condensed none)
          | _ => none) = _
        rw [hch]
  · intro hw hch
    cases w with
    | nil => exact absurd rfl hw
    | cons kv rest =>
      show (match historicalChain (kv :: rest) with
        | WVal.list (r :: rs) => some (compress_json_to_tuples (some (r :: rs)) condensed none)
        | _ => none) = none
      rcases hch with hch | hch <;> rw [hch]

/-- C6 witness: both unwrap branches evaluated on concrete wrappers. -/
theorem claim6_historical_unwrap_witness :
    historical_price_full (some [(chars "symbol", WVal.null),
      (chars "historicalStockList", WVal.list [[(chars "close", PyVal.vInt 3)]])]) true =
      some (PyOut.table [[chars "close"], [chars "3"]]) ∧
    historical_price_full (some [(chars "historical",
      WVal.list [[(chars "close", PyVal.vInt 4)]])]) true =
      some (PyOut.table [[chars "close"], [chars "4"]]) := by
  have h1 := (claim6_historical_unwrap [(chars "symbol", WVal.null),
    (chars "historicalStockList", WVal.list [[(chars "close", PyVal.vInt 3)]])] true).2.2.1
    [[(chars "close", PyVal.vInt 3)]] (by decide) (by decide) (by decide)
  have h2 := (claim6_historical_unwrap [(chars "historical",
    WVal.list [[(chars "close", PyVal.vInt 4)]])] true).2.2.2.1
    [[(chars "close", PyVal.vInt 4)]] (by decide) (by decide) (by decide) (by decide)
  exact ⟨h1.trans (by decide), h2.trans (by decide)⟩

/-- C6 counterexample: the response contains the key historicalStockList with
an empty list, so by the claim the (compacted) inner list, which is the
non-absent lone empty header row, should be returned, but the code returns
none because the extracted empty list is falsy. -/
theorem claim6_counterexample :
    historical_price_full (some [(chars "historicalStockList", WVal.list [])]) true = none ∧
    compress_json_to_tuples (some []) true none = PyOut.table [[]] := by
  constructor
  · decide
  · decide

/-- C9 (amended): quote.is_market_open receives a single record; with
condensed set it wraps that record in a single-element collection and applies
the legacy tuple compaction with the record's own key order as the field
tuple, yielding a header tuple plus one stringified value row; otherwise (and
on fetch failure) the raw record is passed through.  The company_valuation
variant returns the fetched record unchanged.  No Markdown/TSV/JSON renderer
is involved. -/
theorem claim9_is_market_open (r : Rec) (condensed : Bool) :
    is_market_open none condensed = PyOut.record none ∧
    is_market_open (some r) false = PyOut.record (some r) ∧
    is_market_open (some r) true =
      compress_json_to_tuples (some [r]) true (some (r.map Prod.fst)) ∧
    is_market_open_cv (some r) = some r := by
  refine ⟨?_, rfl, rfl, rfl⟩
  cases condensed <;> rfl

/-- C9 counterexample: on a concrete fetched record the code yields the
condensed tuple table, not the markdown text that wrapping the record in a
single-element collection and applying the renderer (the behavior the claim
states) would yield. -/
theorem claim9_counterexample :
    is_market_open_spec (some [(chars "a", PyVal.vStr (chars "1"))]) (chars "markdown") =
      Except.ok (PyOut.text (chars "| a |\n| --- |\n| 1 |")) ∧
    is_market_open (some [(chars "a", PyVal.vStr (chars "1"))]) true =
      PyOut.table [[chars "a"], [chars "1"]] ∧
    PyOut.table [[chars "a"], [chars "1"]] ≠
      PyOut.text (chars "| a |\n| --- |\n| 1 |") := by
  refine ⟨rfl, rfl, by decide⟩

theorem filterRevenue_ok (revMin : ℚ) (l : List Rec)
    (h : ∀ e ∈ l, pyNum (pyGetD e (chars "revenueEstimated") (PyVal.vInt 0)) ≠ none) :
    filterRevenue revMin l = Except.ok (l.filter (revenueKeep revMin)) := by
  induction l with
  | nil => rfl
  | cons e es ih =>
    have he := h e (List.mem_cons_self _ _)
    rcases hq : pyNum (pyGetD e (chars "revenueEstimated") (PyVal.vInt 0)) with _ | q
    · exact absurd hq he
    · rw [filterRevenue, hq, ih (fun x hx => h x (List.mem_cons_of_mem _ hx))]
      show Except.ok (if revMin ≤ q then e :: List.filter (revenueKeep revMin) es
        else List.filter (revenueKeep revMin) es) =
        Except.ok (List.filter (revenueKeep revMin) (e :: es))
      by_cases hle : revMin ≤ q
      · rw [if_pos hle, List.filter_cons_of_pos (by simp [revenueKeep, hq, hle])]
      · rw [if_neg hle, List.filter_cons_of_neg (by simp [revenueKeep, hq, hle])]

/-- C4: earning_calendar passes an absent fetch through as none; with
estimate_required it first drops every record whose epsEstimated or
revenueEstimated is absent or null, then drops every record whose
revenueEstimated falls below the floor (a missing key counting as 0), and
hands the survivors to format_output with the fixed seven-field projection
(which json mode ignores); without estimate_required only the floor filter
runs.  Hypotheses: revenueEstimated values are numbers or null (else Python
would raise TypeError on the comparison). -/
theorem claim4_earning_calendar (recs : List Rec) (revMin : ℚ) (output : Str)
    (hnum : ∀ e ∈ recs, isNumOrNone (pyGetD e (chars "revenueEstimated") (PyVal.vInt 0)) = true) :
    (earning_calendar none true revMin output = Except.ok none) ∧
    (earning_calendar (some recs) true revMin output =
      Except.map some (format_output
        (some ((recs.filter estimateComplete).filter (revenueKeep revMin)))
        output (some earningFields))) ∧
    ((∀ e ∈ recs, pyNum (pyGetD e (chars "revenueEstimated") (PyVal.vInt 0)) ≠ none) →
      earning_calendar (some recs) false revMin output =
      Except.map some (format_output (some (recs.filter (revenueKeep revMin)))
        output (some earningFields))) := by
  refine ⟨rfl, ?_, ?_⟩
  · have hnum1 : ∀ e ∈ recs.filter estimateComplete,
        pyNum (pyGetD e (chars "revenueEstimated") (PyVal.vInt 0)) ≠ none := by
      intro e he
      have hmem := List.mem_of_mem_filter he
      have hcomp := List.of_mem_filter he
      rw [estimateComplete, Bool.and_eq_true] at hcomp
      have hrevne : pyGetD e (chars "revenueEstimated") PyVal.vNone ≠ PyVal.vNone :=
        bne_iff_ne.mp hcomp.2
      have hnn := hnum e hmem
      rcases hget : recGet e (chars "revenueEstimated") with _ | v
      · simp only [pyGetD, hget, Option.getD_none]
        simp [pyNum]
      · simp only [pyGetD, hget, Option.getD_some] at hnn hrevne ⊢
        cases v with
        | vNone => exact absurd rfl hrevne
        | vStr s => simp [isNumOrNone] at hnn
        | vInt n => simp [pyNum]
        | vFloat m d => simp [pyNum]
    show (match filterRevenue revMin (recs.filter estimateComplete) with
      | Except.error e => Except.error e
      | Except.ok recs2 =>
        match format_output (some recs2) output (some earningFields) with
        | Except.error e => Except.error e
        | Except.ok out => Except.ok (some out)) = _
    rw [filterRevenue_ok revMin _ hnum1]
    show (match format_output (some ((recs.filter estimateComplete).filter
        (revenueKeep revMin))) output (some earningFields) with
      | Except.error e => Except.error e
      | Except.ok out => Except.ok (some out)) = _
    rcases hfmt : format_output (some ((recs.filter estimateComplete).filter
      (revenueKeep revMin))) output (some earningFields) with e | out <;> rfl
  · intro hnum0
    show (match filterRevenue revMin recs with
      | Except.error e => Except.error e
      | Except.ok recs2 =>
        match format_output (some recs2) output (some earningFields) with
        | Except.error e => Except.error e
        | Except.ok out => Except.ok (some out)) = _
    rw [filterRevenue_ok revMin _ hnum0]
    show (match format_output (some (recs.filter (revenueKeep revMin)))
        output (some earningFields) with
      | Except.error e => Except.error e
      | Except.ok out => Except.ok (some out)) = _
    rcases hfmt : format_output (some (recs.filter (revenueKeep revMin)))
      output (some earningFields) with e | out <;> rfl

set_option maxRecDepth 4000 in
/-- C4 witness: on the spec's three synthetic records with the default
1,000,000,000 floor, only the third record survives (the first has a null
epsEstimated, the second a revenue estimate below the floor), in json mode
unprojected and in markdown mode projected to the seven fixed fields. -/
theorem claim4_earning_calendar_witness :
    earning_calendar (some
      [[(chars "date", PyVal.vStr (chars "2023-01-01")),
        (chars "epsEstimated", PyVal.vNone),
        (chars "revenueEstimated", PyVal.vFloat 20000000000 1)],
       [(chars "date", PyVal.vStr (chars "2023-02-01")),
        (chars "epsEstimated", PyVal.vFloat 12 1),
        (chars "revenueEstimated", PyVal.vFloat 5000000000 1)],
       [(chars "date", PyVal.vStr (chars "2023-03-01")),
        (chars "epsEstimated", PyVal.vFloat 15 1),
        (chars "revenueEstimated", PyVal.vFloat 15000000000 1)]])
      true 1000000000 (chars "json") =
      Except.ok (some (PyOut.listD (some
        [[(chars "date", PyVal.vStr (chars "2023-03-01")),
          (chars "epsEstimated", PyVal.vFloat 15 1),
          (chars "revenueEstimated", PyVal.vFloat 15000000000 1)]]))) ∧
    earning_calendar (some
      [[(chars "date", PyVal.vStr (chars "2023-01-01")),
        (chars "epsEstimated", PyVal.vNone),
        (chars "revenueEstimated", PyVal.vFloat 20000000000 1)],
       [(chars "date", PyVal.vStr (chars "2023-02-01")),
        (chars "epsEstimated", PyVal.vFloat 12 1),
        (chars "revenueEstimated", PyVal.vFloat 5000000000 1)],
       [(chars "date", PyVal.vStr (chars "2023-03-01")),
        (chars "epsEstimated", PyVal.vFloat 15 1),
        (chars "revenueEstimated", PyVal.vFloat 15000000000 1)]])
      true 1000000000 (chars "markdown") =
      Except.ok (some (PyOut.text (chars
        "| date | symbol | eps | epsEstimated | revenue | revenueEstimated | fiscalDateEnding |\n| --- | --- | --- | --- | --- | --- | --- |\n| 2023-03-01 |  |  | 1.5 |  | 1500000000.0 |  |"))) := by
  constructor
  · exact ((claim4_earning_calendar _ 1000000000 (chars "json") (by decide)).2.1).trans (by decide)
  · exact ((claim4_earning_calendar _ 1000000000 (chars "markdown") (by decide)).2.1).trans (by decide)

/-- C7: in every statement function and the constituent-list function,
download mode requests csv, writes the raw response body to the named file
and returns no value without running the JSON fetch-and-render path, while
the default mode never writes a file and returns the rendered result;
exactly one of the two code paths executes per call. -/
theorem claim7_download_short_circuit (env : FetchEnv) (apiKey : PyVal)
    (symbol : Str) (limit : Int) (period : Str) (filename : Str) (output : Str)
    (condensed : Bool)
    (hper : validate_period period = Except.ok period) :
    (income_statement env apiKey symbol limit period true filename output =
      Except.ok { path := chars "income-statement/" ++ symbol,
                  query := [(chars "apikey", apiKey), (chars "limit", PyVal.vInt limit),
                            (chars "period", PyVal.vStr period),
                            (chars "datatype", PyVal.vStr (chars "csv"))],
                  fileWritten := some (filename, env.csvBody),
                  jsonFetched := false, retval := none }) ∧
    (income_statement env apiKey symbol limit period false filename output =
      Except.map (fun out =>
        { path := chars "income-statement/" ++ symbol,
           query := [(chars "apikey", apiKey), (chars "limit", PyVal.vInt limit),
                     (chars "period", PyVal.vStr period)],
           fileWritten := none, jsonFetched := true, retval := some out })
        (format_output env.jsonResult output none)) ∧
    (balance_sheet_statement env apiKey symbol limit period true filename output =
      Except.ok { path := chars "balance-sheet-statement/" ++ symbol,
                  query := [(chars "apikey", apiKey), (chars "limit", PyVal.vInt limit),
                            (chars "period", PyVal.vStr period),
                            (chars "datatype", PyVal.vStr (chars "csv"))],
                  fileWritten := some (filename, env.csvBody),
                  jsonFetched := false, retval := none }) ∧
    (balance_sheet_statement env apiKey symbol limit period false filename output =
      Except.map (fun out =>
        { path := chars "balance-sheet-statement/" ++ symbol,
           query := [(chars "apikey", apiKey), (chars "limit", PyVal.vInt limit),
                     (chars "period", PyVal.vStr period)],
           fileWritten := none, jsonFetched := true, retval := some out })
        (format_output env.jsonResult output none)) ∧
    (cash_flow_statement env apiKey symbol limit period true filename output =
      Except.ok { path := chars "cash-flow-statement/" ++ symbol,
                  query := [(chars "apikey", apiKey), (chars "limit", PyVal.vInt limit),
                            (chars "period", PyVal.vStr period),
                            (chars "datatype", PyVal.vStr (chars "csv"))],
                  fileWritten := some (filename, env.csvBody),
                  jsonFetched := false, retval := none }) ∧
    (cash_flow_statement env apiKey symbol limit period false filename output =
      Except.map (fun out =>
        { path := chars "cash-flow-statement/" ++ symbol,
           query := [(chars "apikey", apiKey), (chars "limit", PyVal.vInt limit),
                     (chars "period", PyVal.vStr period)],
           fileWritten := none, jsonFetched := true, retval := some out })
        (format_output env.jsonResult output none)) ∧
    (income_statement_as_reported env apiKey symbol limit period true filename output =
      Except.ok { path := chars "income-statement-as-reported/" ++ symbol,
                  query := [(chars "apikey", apiKey), (chars "limit", PyVal.vInt limit),
                            (chars "period", PyVal.vStr period),
                            (chars "datatype", PyVal.vStr (chars "csv"))],
                  fileWritten := some (filename, env.csvBody),
                  jsonFetched := false, retval := none }) ∧
    (income_statement_as_reported env apiKey symbol limit period false filename output =
      Except.map (fun out =>
        { path := chars "income-statement-as-reported/" ++ symbol,
           query := [(chars "apikey", apiKey), (chars "limit", PyVal.vInt limit),
                     (chars "period", PyVal.vStr period)],
           fileWritten := none, jsonFetched := true, retval := some out })
        (format_output env.jsonResult output none)) ∧
    (balance_sheet_statement_as_reported env apiKey symbol limit period true filename output =
      Except.ok { path := chars "balance-sheet-statement-as-reported/" ++ symbol,
                  query := [(chars "apikey", apiKey), (chars "limit", PyVal.vInt limit),
                            (chars "period", PyVal.vStr period),
                            (chars "datatype", PyVal.vStr (chars "csv"))],
                  fileWritten := some (filename, env.csvBody),
                  jsonFetched := false, retval := none }) ∧
    (balance_sheet_statement_as_reported env apiKey symbol limit period false filename output =
      Except.map (fun out =>
        { path := chars "balance-sheet-statement-as-reported/" ++ symbol,
           query := [(chars "apikey", apiKey), (chars "limit", PyVal.vInt limit),
                     (chars "period", PyVal.vStr period)],
           fileWritten := none, jsonFetched := true, retval := some out })
        (format_output env.jsonResult output none)) ∧
    (cash_flow_statement_as_reported env apiKey symbol limit period true filename output =
      Except.ok { path := chars "cash-flow-statement-as-reported/" ++ symbol,
                  query := [(chars "apikey", apiKey), (chars "limit", PyVal.vInt limit),
                            (chars "period", PyVal.vStr period),
                            (chars "datatype", PyVal.vStr (chars "csv"))],
                  fileWritten := some (filename, env.csvBody),
                  jsonFetched := false, retval := none }) ∧
    (cash_flow_statement_as_reported env apiKey symbol limit period false filename output =
      Except.map (fun out =>
        { path := chars "cash-flow-statement-as-reported/" ++ symbol,
           query := [(chars "apikey", apiKey), (chars "limit", PyVal.vInt limit),
                     (chars "period", PyVal.vStr period)],
           fileWritten := none, jsonFetched := true, retval := some out })
        (format_output env.jsonResult output none)) ∧
    (sp500_constituent env apiKey true filename condensed =
      { path := chars "sp500_constituent",
        query := [(chars "apikey", apiKey), (chars "datatype", PyVal.vStr (chars "csv"))],
        fileWritten := some (filename, env.csvBody),
        jsonFetched := false, retval := none }) ∧
    (sp500_constituent env apiKey false filename condensed =
      { path := chars "sp500_constituent",
        query := [(chars "apikey", apiKey)],
        fileWritten := none, jsonFetched := true,
        retval := some (compress_json_to_tuples env.jsonResult condensed none) }) := by
  refine ⟨?_, ?_, ?_, ?_, ?_, ?_, ?_, ?_, ?_, ?_, ?_, ?_, ?_, ?_⟩
  · simp only [income_statement, hper]
    rfl
  · simp only [income_statement, hper]
    rcases hfmt : format_output env.jsonResult output none with e | out <;> rfl
  · simp only [balance_sheet_statement, hper]
    rfl
  · simp only [balance_sheet_statement, hper]
    rcases hfmt : format_output env.jsonResult output none with e | out <;> rfl
  · simp only [cash_flow_statement, hper]
    rfl
  · simp only [cash_flow_statement, hper]
    rcases hfmt : format_output env.jsonResult output none with e | out <;> rfl
  · simp only [income_statement_as_reported, hper]
    rfl
  · simp only [income_statement_as_reported, hper]
    rcases hfmt : format_output env.jsonResult output none with e | out <;> rfl
  · simp only [balance_sheet_statement_as_reported, hper]
    rfl
  · simp only [balance_sheet_statement_as_reported, hper]
    rcases hfmt : format_output env.jsonResult output none with e | out <;> rfl
  · simp only [cash_flow_statement_as_reported, hper]
    rfl
  · simp only [cash_flow_statement_as_reported, hper]
    rcases hfmt : format_output env.jsonResult output none with e | out <;> rfl
  · rfl
  · rfl

/-- C7 witness: one statement function and the constituent function,
each in both modes, on a concrete environment. -/
theorem claim7_download_short_circuit_witness :
    income_statement { jsonResult := some [[(chars "a", PyVal.vInt 1)]], csvBody := chars "raw" }
      (PyVal.vStr (chars "k")) (chars "AAPL") 10 (chars "annual") true
      (chars "income_statement.csv") (chars "markdown") =
      Except.ok { path := chars "income-statement/" ++ chars "AAPL",
                  query := [(chars "apikey", PyVal.vStr (chars "k")),
                            (chars "limit", PyVal.vInt 10),
                            (chars "period", PyVal.vStr (chars "annual")),
                            (chars "datatype", PyVal.vStr (chars "csv"))],
                  fileWritten := some (chars "income_statement.csv", chars "raw"),
                  jsonFetched := false, retval := none } ∧
    income_statement { jsonResult := some [[(chars "a", PyVal.vInt 1)]], csvBody := chars "raw" }
      (PyVal.vStr (chars "k")) (chars "AAPL") 10 (chars "annual") false
      (chars "income_statement.csv") (chars "markdown") =
      Except.ok { path := chars "income-statement/" ++ chars "AAPL",
                  query := [(chars "apikey", PyVal.vStr (chars "k")),
                            (chars "limit", PyVal.vInt 10),
                            (chars "period", PyVal.vStr (chars "annual"))],
                  fileWritten := none, jsonFetched := true,
                  retval := some (PyOut.text (chars "| a |\n| --- |\n| 1 |")) } ∧
    sp500_constituent { jsonResult := some [[(chars "a", PyVal.vInt 1)]], csvBody := chars "raw" }
      (PyVal.vStr (chars "k")) false (chars "sp500.csv") true =
      { path := chars "sp500_constituent",
        query := [(chars "apikey", PyVal.vStr (chars "k"))],
        fileWritten := none, jsonFetched := true,
        retval := some (PyOut.table [[chars "a"], [chars "1"]]) } := by
  have h := claim7_download_short_circuit
    { jsonResult := some [[(chars "a", PyVal.vInt 1)]], csvBody := chars "raw" }
    (PyVal.vStr (chars "k")) (chars "AAPL") 10 (chars "annual")
    (chars "income_statement.csv") (chars "markdown") true (by decide)
  refine ⟨h.1, h.2.1.trans (by decide), ?_⟩
  have h2 := claim7_download_short_circuit
    { jsonResult := some [[(chars "a", PyVal.vInt 1)]], csvBody := chars "raw" }
    (PyVal.vStr (chars "k")) (chars "AAPL") 10 (chars "annual")
    (chars "sp500.csv") (chars "markdown") true (by decide)
  exact h2.2.2.2.2.2.2.2.2.2.2.2.2.2.trans (by decide)

/-! ### Helper lemmas for the precision-rounding claim -/

theorem natDigitsGo_digits (fuel n : Nat) :
    ∀ c ∈ natDigitsGo fuel n, ∃ k, k < 10 ∧ c = digitChar k := by
  induction fuel generalizing n with
  | zero => intro c hc; simp [natDigitsGo] at hc
  | succ f ih =>
    intro c hc
    rw [natDigitsGo] at hc
    by_cases hn : n < 10
    · rw [if_pos hn] at hc
      rcases List.mem_singleton.mp hc with rfl
      exact ⟨n, hn, rfl⟩
    · rw [if_neg hn] at hc
      rcases List.mem_append.mp hc with hc | hc
      · exact ih (n / 10) c hc
      · rcases List.mem_singleton.mp hc with rfl
        exact ⟨n % 10, Nat.mod_lt _ (by omega), rfl⟩

theorem digitChar_ne_dot (k : Nat) (hk : k < 10) : digitChar k ≠ '.' := by
  interval_cases k <;> decide

theorem dot_not_mem_natDigits (n : Nat) : '.' ∉ natDigits n := by
  intro hmem
  rcases natDigitsGo_digits (n + 1) n '.' hmem with ⟨k, hk, hEq⟩
  exact digitChar_ne_dot k hk hEq.symm

theorem splitOn_sep {α : Type} [DecidableEq α] (x : α) (a b : List α)
    (ha : x ∉ a) (hb : x ∉ b) : (a ++ x :: b).splitOn x = [a, b] := by
  have h := List.splitOn_intercalate [a, b] x
    (by intro l hl; rcases List.mem_cons.mp hl with rfl | hl
        · exact ha
        · rcases List.mem_cons.mp hl with rfl | hl
          · exact hb
          · simp at hl)
    (by simp)
  rwa [intercalate_cons_cons, intercalate_singleton, List.append_assoc,
    List.singleton_append] at h

theorem decPlaces_point (a b : Str) (ha : '.' ∉ a) (hb : '.' ∉ b) :
    decPlaces (a ++ '.' :: b) = b.length := by
  rw [decPlaces, if_pos (List.mem_append.mpr (Or.inr (List.mem_cons_self _ _))),
    splitOn_sep '.' a b ha hb]
  rfl

theorem natDigits_ne_nil (n : Nat) : natDigits n ≠ [] := by
  rw [natDigits, natDigitsGo]
  by_cases hn : n < 10
  · rw [if_pos hn]; exact List.cons_ne_nil _ _
  · rw [if_neg hn]
    intro h
    rcases List.append_eq_nil.mp h with ⟨_, h2⟩
    exact List.cons_ne_nil _ _ h2

theorem natFloatDigits_split (mag k : Nat) :
    ∃ T D : Str, natFloatDigits mag k = T ++ '.' :: D ∧
      '.' ∉ T ∧ '.' ∉ D ∧ D.length = k := by
  have hpad : ∀ c ∈ (if (natDigits mag).length < k + 1 then
      List.replicate (k + 1 - (natDigits mag).length) '0' ++ natDigits mag
      else natDigits mag), c ≠ '.' := by
    intro c hc
    by_cases hlen : (natDigits mag).length < k + 1
    · rw [if_pos hlen] at hc
      rcases List.mem_append.mp hc with hc | hc
      · rw [List.eq_of_mem_replicate hc]; decide
      · intro hEq; exact dot_not_mem_natDigits mag (hEq ▸ hc)
    · rw [if_neg hlen] at hc
      intro hEq; exact dot_not_mem_natDigits mag (hEq ▸ hc)
  have hlen : k + 1 ≤ (if (natDigits mag).length < k + 1 then
      List.replicate (k + 1 - (natDigits mag).length) '0' ++ natDigits mag
      else natDigits mag).length := by
    have hne := natDigits_ne_nil mag
    have hpos : 1 ≤ (natDigits mag).length := by
      rcases hd : natDigits mag with _ | ⟨c, t⟩
      · exact absurd hd hne
      · simp
    by_cases hl : (natDigits mag).length < k + 1
    · rw [if_pos hl, List.length_append, List.length_replicate]
      omega
    · rw [if_neg hl]
      omega
  refine ⟨_, _, rfl, ?_, ?_, ?_⟩
  · intro hmem
    exact hpad '.' (List.take_subset _ _ hmem) rfl
  · intro hmem
    exact hpad '.' (List.drop_subset _ _ hmem) rfl
  · rw [List.length_drop]
    omega

theorem decPlaces_signed_float (m : Int) (n k : Nat) :
    decPlaces ((if m < 0 then ['-'] else []) ++ natFloatDigits n k) = k := by
  rcases natFloatDigits_split n k with ⟨T, D, hEq, hT, hD, hDlen⟩
  rw [hEq, ← List.append_assoc,
    decPlaces_point ((if m < 0 then ['-'] else []) ++ T) D ?ha hD, hDlen]
  case ha =>
    intro hmem
    rcases List.mem_append.mp hmem with hc | hc
    · by_cases hm : m < 0
      · rw [if_pos hm] at hc; simp at hc
      · rw [if_neg hm] at hc; simp at hc
    · exact hT hc

theorem applyPrecList_eq_map (p : Int) (l : List PyData) :
    applyPrecList p l = l.map (applyPrec p) := by
  induction l with
  | nil => rfl
  | cons x xs ih => rw [applyPrecList, ih, List.map_cons]

/-- C3 (amended): with an absent precision the data is returned unchanged;
non-numeric values pass through; the helper recurses through lists and maps
every record field.  An int is rendered as its digit string.  A float whose
string shows d decimals, under a requested precision p of at least 1, is
rendered with exactly min(d, p) decimal places and its mantissa is the
ROUND_HALF_UP quantization (ties away from zero) of the original mantissa:
when min(d, p) = d the mantissa is unchanged, otherwise it is the integer n
with n*10^s differing from the original magnitude by at most half of 10^s,
ties rounded up in magnitude (the two displayed inequalities pin n to the
floor of (magnitude + 10^s/2) / 10^s).  For p of at most 0 the value is NOT
rounded half-up: it is truncated toward zero and rendered without a decimal
point. -/
theorem claim3_apply_precision :
    (∀ data : PyData, apply_precision data none = data) ∧
    (∀ (p : Int) (s : Str), round_value p (PyVal.vStr s) = PyVal.vStr s) ∧
    (∀ p : Int, round_value p PyVal.vNone = PyVal.vNone) ∧
    (∀ (p : Int) (l : List PyData),
      applyPrec p (PyData.list l) = PyData.list (l.map (applyPrec p))) ∧
    (∀ (p : Int) (r : Rec),
      applyPrec p (PyData.record r) =
        PyData.record (r.map (fun kv => (kv.1, round_value p kv.2)))) ∧
    (∀ (p : Int) (n : Int), round_value p (PyVal.vInt n) = PyVal.vStr (intRepr n)) ∧
    (∀ (m : Int) (d : Nat) (p : Int), 0 < d → 1 ≤ p →
      ∃ n : Nat,
        round_value p (PyVal.vFloat m d) =
          PyVal.vStr ((if m < 0 then ['-'] else []) ++ natFloatDigits n (min d p.toNat)) ∧
        decPlaces ((if m < 0 then ['-'] else []) ++ natFloatDigits n (min d p.toNat)) =
          min d p.toNat ∧
        ((min d p.toNat = d ∧ n = m.natAbs) ∨
         (min d p.toNat < d ∧
           n * 10 ^ (d - min d p.toNat) ≤
             m.natAbs + 5 * 10 ^ (d - min d p.toNat - 1) ∧
           m.natAbs + 5 * 10 ^ (d - min d p.toNat - 1) <
             (n + 1) * 10 ^ (d - min d p.toNat)))) ∧
    (∀ (m : Int) (d : Nat) (p : Int), p ≤ 0 →
      ∃ t : Int,
        round_value p (PyVal.vFloat m d) = PyVal.vStr (intRepr t) ∧
        t.natAbs * 10 ^ d ≤ m.natAbs ∧
        m.natAbs < (t.natAbs + 1) * 10 ^ d ∧
        (0 ≤ m → 0 ≤ t) ∧ (m < 0 → t ≤ 0)) := by
  refine ⟨fun _ => rfl, fun _ _ => rfl, fun _ => rfl,
    fun p l => congrArg PyData.list (applyPrecList_eq_map p l),
    fun _ _ => rfl, fun _ _ => rfl, ?_, ?_⟩
  · intro m d p hd hp
    have htn : (min (d : Int) p).toNat = min d p.toNat := by omega
    have hpos : 0 < min (d : Int) p := by omega
    refine ⟨quantMant m.natAbs (d - min d p.toNat), ?_, decPlaces_signed_float _ _ _, ?_⟩
    · show (if 0 < min (d : Int) p then
          PyVal.vStr ((if m < 0 then ['-'] else []) ++
            natFloatDigits (quantMant m.natAbs (d - (min (d : Int) p).toNat))
              (min (d : Int) p).toNat)
        else PyVal.vStr (intRepr (intTrunc m d))) = _
      rw [if_pos hpos, htn]
    · by_cases hkd : min d p.toNat = d
      · left
        refine ⟨hkd, ?_⟩
        rw [quantMant, if_pos (by omega)]
      · right
        have hs : 1 ≤ d - min d p.toNat := by omega
        refine ⟨by omega, ?_, ?_⟩
        · rw [quantMant, if_neg (by omega)]
          exact Nat.div_mul_le_self _ _
        · rw [quantMant, if_neg (by omega)]
          have h1 := Nat.div_add_mod (m.natAbs + 5 * 10 ^ (d - min d p.toNat - 1))
            (10 ^ (d - min d p.toNat))
          have h2 := @Nat.mod_lt (m.natAbs + 5 * 10 ^ (d - min d p.toNat - 1))
            (10 ^ (d - min d p.toNat)) (by positivity)
          nlinarith [h1, h2]
  · intro m d p hp
    have hneg : ¬ 0 < min (d : Int) p := by omega
    refine ⟨intTrunc m d, ?_, ?_, ?_, ?_, ?_⟩
    · show (if 0 < min (d : Int) p then
          PyVal.vStr ((if m < 0 then ['-'] else []) ++
            natFloatDigits (quantMant m.natAbs (d - (min (d : Int) p).toNat))
              (min (d : Int) p).toNat)
        else PyVal.vStr (intRepr (intTrunc m d))) = _
      rw [if_neg hneg]
    · have : (intTrunc m d).natAbs = m.natAbs / 10 ^ d := by
        rw [intTrunc]
        by_cases hm : m < 0
        · rw [if_pos hm, neg_one_mul, Int.natAbs_neg]
          exact Int.natAbs_ofNat _
        · rw [if_neg hm, one_mul]
          exact Int.natAbs_ofNat _
      rw [this]
      exact Nat.div_mul_le_self _ _
    · have : (intTrunc m d).natAbs = m.natAbs / 10 ^ d := by
        rw [intTrunc]
        by_cases hm : m < 0
        · rw [if_pos hm, neg_one_mul, Int.natAbs_neg]
          exact Int.natAbs_ofNat _
        · rw [if_neg hm, one_mul]
          exact Int.natAbs_ofNat _
      rw [this]
      have h1 := Nat.div_add_mod m.natAbs (10 ^ d)
      have h2 := @Nat.mod_lt m.natAbs (10 ^ d) (by positivity)
      nlinarith [h1, h2]
    · intro hm
      rw [intTrunc, if_neg (by omega), one_mul]
      exact Int.ofNat_nonneg _
    · intro hm
      rw [intTrunc, if_pos hm, neg_one_mul]
      exact neg_nonpos.mpr (Int.ofNat_nonneg _)

/-- C3 witness: the spec's two concrete examples, and the half-up
characterization applied at 3.14159 with precision 2. -/
theorem claim3_apply_precision_witness :
    round_value 5 (PyVal.vFloat 31 1) = PyVal.vStr (chars "3.1") ∧
    round_value 2 (PyVal.vFloat 314159 5) = PyVal.vStr (chars "3.14") ∧
    (∃ n : Nat,
      round_value 2 (PyVal.vFloat 314159 5) =
        PyVal.vStr ((if (314159 : Int) < 0 then ['-'] else []) ++
          natFloatDigits n (min 5 (2 : Int).toNat)) ∧
      decPlaces ((if (314159 : Int) < 0 then ['-'] else []) ++
          natFloatDigits n (min 5 (2 : Int).toNat)) = min 5 (2 : Int).toNat ∧
      ((min 5 (2 : Int).toNat = 5 ∧ n = (314159 : Int).natAbs) ∨
       (min 5 (2 : Int).toNat < 5 ∧
         n * 10 ^ (5 - min 5 (2 : Int).toNat) ≤
           (314159 : Int).natAbs + 5 * 10 ^ (5 - min 5 (2 : Int).toNat - 1) ∧
         (314159 : Int).natAbs + 5 * 10 ^ (5 - min 5 (2 : Int).toNat - 1) <
           (n + 1) * 10 ^ (5 - min 5 (2 : Int).toNat)))) :=
  ⟨by decide, by decide,
   claim3_apply_precision.2.2.2.2.2.2.1 314159 5 2 (by decide) (by decide)⟩

/-- C3 counterexample: with requested precision 0 the code truncates toward
zero instead of rounding half-up: 3.7 renders as the string 3 although
rounding half-up to min(1, 0) = 0 decimal places yields 4 (as the half-up
quantization mantissa of the same value shows). -/
theorem claim3_counterexample :
    round_value 0 (PyVal.vFloat 37 1) = PyVal.vStr (chars "3") ∧
    quantMant 37 1 = 4 ∧
    PyVal.vStr (chars "3") ≠ PyVal.vStr (chars "4") := by
  exact ⟨by decide, by decide, by decide⟩
